import Mathlib

/-!
Verification of the numeric-range (literal polymorphism) core of the Roc
compiler, translated from crates/compiler/types/src/num.rs.

A numeric literal carries an open lower-bound constraint on its eventual
concrete machine type.  The code models this as a four-variant lattice
element (`NumericRange`), supports containment checks against concrete
type shapes (`match_content`), meets of two constraints (`intersection`),
and enumeration of defaulting candidates (`variable_slice`).
-/

namespace RocNum

/-- Signedness of a concrete storage width (enum IntSignedness in num.rs). -/
inductive IntSignedness where
  | Unsigned
  | Signed
deriving DecidableEq, Repr, Fintype

/-- Concrete numeric storage widths (enum IntLitWidth in num.rs): unsigned and
signed integer widths, the platform-sized Nat, and three float-family widths
that carry the largest integer magnitude representable without precision
loss. -/
inductive IntLitWidth where
  | U8
  | U16
  | U32
  | U64
  | U128
  | I8
  | I16
  | I32
  | I64
  | I128
  | Nat
  | F32
  | F64
  | Dec
deriving DecidableEq, Repr, Fintype

/-- IntLitWidth::signedness_and_width: the IntSignedness and bit width of a
variant.  Nat is hard-coded as unsigned 64-bit; float-family widths report
Signed together with the bit count of the largest exactly-representable
integer (24 / 53 / 128). -/
def IntLitWidth.signedness_and_width : IntLitWidth → IntSignedness × ℕ
  | .U8 => (.Unsigned, 8)
  | .U16 => (.Unsigned, 16)
  | .U32 => (.Unsigned, 32)
  | .U64 => (.Unsigned, 64)
  | .U128 => (.Unsigned, 128)
  | .I8 => (.Signed, 8)
  | .I16 => (.Signed, 16)
  | .I32 => (.Signed, 32)
  | .I64 => (.Signed, 64)
  | .I128 => (.Signed, 128)
  | .Nat => (.Unsigned, 64)
  | .F32 => (.Signed, 24)
  | .F64 => (.Signed, 53)
  | .Dec => (.Signed, 128)

/-- IntLitWidth::is_signed. -/
def IntLitWidth.is_signed (w : IntLitWidth) : Bool :=
  w.signedness_and_width.1 == IntSignedness.Signed

/-- IntLitWidth::is_superset: whether `self` represents a superset of the
integers that `lower_bound` represents, on one side of 0 (the negative side
when `is_negative` is true, otherwise the positive side). -/
def IntLitWidth.is_superset (self lower_bound : IntLitWidth) (is_negative : Bool) : Bool :=
  if is_negative then
    match self.signedness_and_width, lower_bound.signedness_and_width with
    | (.Signed, us), (.Signed, lb) => decide (us ≥ lb)
    | (.Unsigned, _), (.Signed, _) => false
    | (.Signed, _), (.Unsigned, _) => true
    | (.Unsigned, _), (.Unsigned, _) => true
  else
    match self.signedness_and_width, lower_bound.signedness_and_width with
    | (.Signed, us), (.Signed, lb) => decide (us ≥ lb)
    | (.Unsigned, us), (.Unsigned, lb) => decide (us ≥ lb)
    | (.Unsigned, us), (.Signed, lb) => decide (us ≥ lb)
    | (.Signed, us), (.Unsigned, lb) => decide (us > lb)

/-- The float-family widths (enum FloatWidth in num.rs). -/
inductive FloatWidth where
  | Dec
  | F32
  | F64
deriving DecidableEq, Repr, Fintype

/-- Sign demand placed on a literal (enum SignDemand in num.rs). -/
inductive SignDemand where
  | NoDemand
  | Signed
deriving DecidableEq, Repr, Fintype

/-- A bound placed on a number because of its literal value (enum NumericRange
in num.rs): each variant carries a lower-bound width. -/
inductive NumericRange where
  | IntAtLeastSigned (w : IntLitWidth)
  | IntAtLeastEitherSign (w : IntLitWidth)
  | NumAtLeastSigned (w : IntLitWidth)
  | NumAtLeastEitherSign (w : IntLitWidth)
deriving DecidableEq, Repr, Fintype

/-- NumericRange::width: the carried lower-bound width. -/
def NumericRange.width : NumericRange → IntLitWidth
  | .IntAtLeastSigned w => w
  | .IntAtLeastEitherSign w => w
  | .NumAtLeastSigned w => w
  | .NumAtLeastEitherSign w => w

/-- NumericRange::contains_float_width: the float width is currently not
checked, so this always holds. -/
def NumericRange.contains_float_width (_self : NumericRange) (_width : FloatWidth) : Bool :=
  true

/-- NumericRange::contains_int_width: reject if the candidate width is
unsigned while the range demands signedness, otherwise compare capacities via
signedness_and_width. -/
def NumericRange.contains_int_width (self : NumericRange) (width : IntLitWidth) : Bool :=
  let range_demand : SignDemand × IntLitWidth :=
    match self with
    | .IntAtLeastSigned w => (.Signed, w)
    | .IntAtLeastEitherSign w => (.NoDemand, w)
    | .NumAtLeastSigned w => (.Signed, w)
    | .NumAtLeastEitherSign w => (.NoDemand, w)
  let actual_signedness := width.signedness_and_width.1
  match actual_signedness, range_demand.1 with
  | .Unsigned, .Signed => false
  | _, _ =>
    decide (width.signedness_and_width.2 ≥ range_demand.2.signedness_and_width.2)

/-- NumericRange::intersection: the meet of two ranges, or none when there is
no common lower bound.  The variant pairing selects the result constructor and
the side of 0 on which widths are compared. -/
def NumericRange.intersection (self other : NumericRange) : Option NumericRange :=
  let left := self.width
  let right := other.width
  let arm : (IntLitWidth → NumericRange) × Bool :=
    match self, other with
    | .IntAtLeastSigned _, _ | _, .IntAtLeastSigned _ => (NumericRange.IntAtLeastSigned, true)
    | .NumAtLeastSigned _, .IntAtLeastEitherSign _
    | .IntAtLeastEitherSign _, .NumAtLeastSigned _ => (NumericRange.IntAtLeastSigned, true)
    | .NumAtLeastSigned _, .NumAtLeastSigned _
    | .NumAtLeastSigned _, .NumAtLeastEitherSign _
    | .NumAtLeastEitherSign _, .NumAtLeastSigned _ => (NumericRange.NumAtLeastSigned, true)
    | .IntAtLeastEitherSign _, .IntAtLeastEitherSign _
    | .IntAtLeastEitherSign _, .NumAtLeastEitherSign _
    | .NumAtLeastEitherSign _, .IntAtLeastEitherSign _ => (NumericRange.IntAtLeastEitherSign, false)
    | .NumAtLeastEitherSign _, .NumAtLeastEitherSign _ => (NumericRange.NumAtLeastEitherSign, false)
  let constructor := arm.1
  let is_negative := arm.2
  if is_negative && (!left.is_signed || !right.is_signed) then
    none
  else if left.is_superset right is_negative then
    some (constructor left)
  else if right.is_superset left is_negative then
    some (constructor right)
  else
    none

/-- Outcome of comparing a NumericRange to a concrete type shape (enum
MatchResult in num.rs). -/
inductive MatchResult where
  | RangeInContent
  | ContentInRange
  | NoIntersection
  | DifferentContent
deriving DecidableEq, Repr, Fintype

/-- from_content_in_range in num.rs. -/
def from_content_in_range (result : Bool) : MatchResult :=
  if result then MatchResult.ContentInRange else MatchResult.NoIntersection

/-- Modelled from the spec: the identities of the built-in numeric type names
(the Symbol constants of the external symbol table, whose definitions are not
part of the excerpt).  Only identity comparison is consumed; `other` stands
for every symbol that is not one of the built-in numeric names matched by
match_content. -/
inductive Symbol where
  | NUM_I8
  | NUM_SIGNED8
  | NUM_U8
  | NUM_UNSIGNED8
  | NUM_I16
  | NUM_SIGNED16
  | NUM_U16
  | NUM_UNSIGNED16
  | NUM_I32
  | NUM_SIGNED32
  | NUM_U32
  | NUM_UNSIGNED32
  | NUM_I64
  | NUM_SIGNED64
  | NUM_NAT
  | NUM_NATURAL
  | NUM_U64
  | NUM_UNSIGNED64
  | NUM_I128
  | NUM_SIGNED128
  | NUM_U128
  | NUM_UNSIGNED128
  | NUM_DEC
  | NUM_F32
  | NUM_F64
  | NUM_FRAC
  | NUM_FLOATINGPOINT
  | NUM_NUM
  | NUM_INT
  | NUM_INTEGER
  | other
deriving DecidableEq, Repr

/-- Modelled from the spec: the concrete type shape bound to a type variable
(enum Content of the external substitution store, whose definition is not part
of the excerpt).  Dereferencing a variable through the store is inlined: an
Alias node carries the resolved content of its single type argument and of its
real type directly, so the store lookups of match_content become subterm
access (acyclic substitutions).  `Other` stands for every shape match_content
treats as non-numeric. -/
inductive Content where
  | FlexVar
  | RigidVar
  | RangedNumber (range : NumericRange)
  | Alias (symbol : Symbol) (arg : Content) (real : Content)
  | Other
deriving DecidableEq, Repr

/-- NumericRange::match_content: compare a range against a concrete type
shape discovered by the unifier. -/
def NumericRange.match_content (self : NumericRange) (content : Content) : MatchResult :=
  match content with
  | .RangedNumber other_range =>
    match self.intersection other_range with
    | some r =>
      if r = other_range then MatchResult.ContentInRange else MatchResult.RangeInContent
    | none => MatchResult.NoIntersection
  | .Alias symbol arg real =>
    match symbol with
    | .NUM_I8 | .NUM_SIGNED8 => from_content_in_range (self.contains_int_width .I8)
    | .NUM_U8 | .NUM_UNSIGNED8 => from_content_in_range (self.contains_int_width .U8)
    | .NUM_I16 | .NUM_SIGNED16 => from_content_in_range (self.contains_int_width .I16)
    | .NUM_U16 | .NUM_UNSIGNED16 => from_content_in_range (self.contains_int_width .U16)
    | .NUM_I32 | .NUM_SIGNED32 => from_content_in_range (self.contains_int_width .I32)
    | .NUM_U32 | .NUM_UNSIGNED32 => from_content_in_range (self.contains_int_width .U32)
    | .NUM_I64 | .NUM_SIGNED64 => from_content_in_range (self.contains_int_width .I64)
    | .NUM_NAT | .NUM_NATURAL => from_content_in_range (self.contains_int_width .Nat)
    | .NUM_U64 | .NUM_UNSIGNED64 => from_content_in_range (self.contains_int_width .U64)
    | .NUM_I128 | .NUM_SIGNED128 => from_content_in_range (self.contains_int_width .I128)
    | .NUM_U128 | .NUM_UNSIGNED128 => from_content_in_range (self.contains_int_width .U128)
    | .NUM_DEC => from_content_in_range (self.contains_float_width .Dec)
    | .NUM_F32 => from_content_in_range (self.contains_float_width .F32)
    | .NUM_F64 => from_content_in_range (self.contains_float_width .F64)
    | .NUM_FRAC | .NUM_FLOATINGPOINT =>
      match self with
      | .IntAtLeastSigned _ | .IntAtLeastEitherSign _ => MatchResult.DifferentContent
      | .NumAtLeastSigned _ | .NumAtLeastEitherSign _ => MatchResult.ContentInRange
    | .NUM_NUM =>
      match arg with
      | .FlexVar | .RigidVar => MatchResult.RangeInContent
      | _ => self.match_content real
    | .NUM_INT | .NUM_INTEGER =>
      match arg with
      | .FlexVar | .RigidVar => MatchResult.RangeInContent
      | _ => self.match_content real
    | .other => MatchResult.DifferentContent
  | _ => MatchResult.DifferentContent

/-- Modelled from the spec: type-variable handles owned by the external
substitution store (the Variable constants of subs.rs, whose definitions are
not part of the excerpt).  The defaulting tables only need one distinct
handle per built-in concrete numeric type. -/
inductive Variable where
  | U8
  | U16
  | U32
  | U64
  | U128
  | I8
  | I16
  | I32
  | I64
  | I128
  | NAT
  | F32
  | F64
  | DEC
deriving DecidableEq, Repr

/-- int_lit_width_to_variable in num.rs. -/
def int_lit_width_to_variable : IntLitWidth → Variable
  | .U8 => .U8
  | .U16 => .U16
  | .U32 => .U32
  | .U64 => .U64
  | .U128 => .U128
  | .I8 => .I8
  | .I16 => .I16
  | .I32 => .I32
  | .I64 => .I64
  | .I128 => .I128
  | .Nat => .NAT
  | .F32 => .F32
  | .F64 => .F64
  | .Dec => .DEC

/-- float_width_to_variable in num.rs. -/
def float_width_to_variable : FloatWidth → Variable
  | .Dec => .DEC
  | .F32 => .F32
  | .F64 => .F64

/-- ALL_INT_OR_FLOAT_VARIABLES in num.rs. -/
def ALL_INT_OR_FLOAT_VARIABLES : List Variable :=
  [.I8, .U8, .I16, .U16, .F32, .I32, .U32, .F64, .I64, .NAT, .U64, .I128, .DEC, .U128]

/-- SIGNED_INT_OR_FLOAT_VARIABLES in num.rs. -/
def SIGNED_INT_OR_FLOAT_VARIABLES : List Variable :=
  [.I8, .I16, .F32, .I32, .F64, .I64, .I128, .DEC]

/-- ALL_INT_VARIABLES in num.rs. -/
def ALL_INT_VARIABLES : List Variable :=
  [.I8, .U8, .I16, .U16, .I32, .U32, .I64, .NAT, .U64, .I128, .U128]

/-- SIGNED_INT_VARIABLES in num.rs. -/
def SIGNED_INT_VARIABLES : List Variable :=
  [.I8, .I16, .I32, .I64, .I128]

/-- NumericRange::variable_slice: locate the lower-bound width inside the
table matching the variant family and return the suffix from that position.
The Rust code unwraps the position and panics when the width is absent from
its table; the panic is modelled as `none`. -/
def NumericRange.variable_slice (self : NumericRange) : Option (List Variable) :=
  match self with
  | .IntAtLeastSigned width =>
    let target := int_lit_width_to_variable width
    (SIGNED_INT_VARIABLES.findIdx? (· == target)).map
      (fun start => SIGNED_INT_VARIABLES.drop start)
  | .IntAtLeastEitherSign width =>
    let target := int_lit_width_to_variable width
    (ALL_INT_VARIABLES.findIdx? (· == target)).map
      (fun start => ALL_INT_VARIABLES.drop start)
  | .NumAtLeastSigned width =>
    let target := int_lit_width_to_variable width
    (SIGNED_INT_OR_FLOAT_VARIABLES.findIdx? (· == target)).map
      (fun start => SIGNED_INT_OR_FLOAT_VARIABLES.drop start)
  | .NumAtLeastEitherSign width =>
    let target := int_lit_width_to_variable width
    (ALL_INT_OR_FLOAT_VARIABLES.findIdx? (· == target)).map
      (fun start => ALL_INT_OR_FLOAT_VARIABLES.drop start)

/-!  Statement-side vocabulary.  The following definitions are not
translations of num.rs functions; they spell out, directly from the words of
the specification, the notions its properties quantify over, so that the
theorems below compare the translated code against an independent reading of
the spec. -/

/-- Spec 4.1: the uniform capacity scale — bit count for integer widths, 64
for the platform width, and 24 / 53 / 128 for the float-family widths. -/
def capacity : IntLitWidth → ℕ
  | .U8 => 8
  | .U16 => 16
  | .U32 => 32
  | .U64 => 64
  | .U128 => 128
  | .I8 => 8
  | .I16 => 16
  | .I32 => 32
  | .I64 => 64
  | .I128 => 128
  | .Nat => 64
  | .F32 => 24
  | .F64 => 53
  | .Dec => 128

/-- Spec 4.1: the unsigned widths are the five unsigned integer widths and
the platform width; signed integer widths and the float-family widths are
signed. -/
def is_unsigned_width : IntLitWidth → Bool
  | .U8 | .U16 | .U32 | .U64 | .U128 | .Nat => true
  | _ => false

/-- The sign demand of a range variant: the signed-demanding variants are
IntAtLeastSigned and NumAtLeastSigned. -/
def NumericRange.sign_demand : NumericRange → SignDemand
  | .IntAtLeastSigned _ => .Signed
  | .NumAtLeastSigned _ => .Signed
  | .IntAtLeastEitherSign _ => .NoDemand
  | .NumAtLeastEitherSign _ => .NoDemand

/-- Whether a range variant is integer-only (IntAtLeast*) as opposed to
any-numeric (NumAtLeast*). -/
def NumericRange.is_int_only : NumericRange → Bool
  | .IntAtLeastSigned _ => true
  | .IntAtLeastEitherSign _ => true
  | .NumAtLeastSigned _ => false
  | .NumAtLeastEitherSign _ => false

/-- The primary built-in alias symbol for a concrete width (the symbol arm of
match_content that dispatches on that width). -/
def alias_for : IntLitWidth → Symbol
  | .U8 => .NUM_U8
  | .U16 => .NUM_U16
  | .U32 => .NUM_U32
  | .U64 => .NUM_U64
  | .U128 => .NUM_U128
  | .I8 => .NUM_I8
  | .I16 => .NUM_I16
  | .I32 => .NUM_I32
  | .I64 => .NUM_I64
  | .I128 => .NUM_I128
  | .Nat => .NUM_NAT
  | .F32 => .NUM_F32
  | .F64 => .NUM_F64
  | .Dec => .NUM_DEC

/-- The float-family widths among IntLitWidth (whose alias arm delegates to
contains_float_width instead of contains_int_width). -/
def is_float_family : IntLitWidth → Bool
  | .F32 | .F64 | .Dec => true
  | _ => false

/-- The fixed defaulting table matching the variant family of a range
(spec 4.4). -/
def table_for : NumericRange → List Variable
  | .IntAtLeastSigned _ => SIGNED_INT_VARIABLES
  | .IntAtLeastEitherSign _ => ALL_INT_VARIABLES
  | .NumAtLeastSigned _ => SIGNED_INT_OR_FLOAT_VARIABLES
  | .NumAtLeastEitherSign _ => ALL_INT_OR_FLOAT_VARIABLES

/-- The variant tag of a range together with the signedness and capacity of
its carried width: what the amended commutativity statement preserves. -/
def NumericRange.shape : NumericRange → Bool × SignDemand × (IntSignedness × ℕ)
  | r => (r.is_int_only, r.sign_demand, r.width.signedness_and_width)

/-- C1 counterexample: intersection is not commutative on the nose.  Nat and
U64 have the same signedness and capacity, so each is a superset of the
other, and intersection keeps the left operand width: the two orders return
ranges carrying different widths. -/
theorem c1_counterexample :
    NumericRange.intersection (.IntAtLeastEitherSign .Nat) (.IntAtLeastEitherSign .U64) ≠
      NumericRange.intersection (.IntAtLeastEitherSign .U64) (.IntAtLeastEitherSign .Nat) := by
  decide

set_option maxRecDepth 40000 in
/-- C1 (amended): intersection is commutative up to the signedness and
capacity of the carried width — both orders agree on presence, on the result
variant, and on the signedness and capacity of the result width; and whenever
the operand widths do not share a signedness-and-capacity pair while being
distinct (the Nat / U64 and Dec / I128 collisions), the two orders agree
exactly. -/
theorem c1_intersection_comm_up_to_shape (A B : NumericRange) :
    Option.map NumericRange.shape (A.intersection B) =
      Option.map NumericRange.shape (B.intersection A)
    ∧ ((A.width.signedness_and_width = B.width.signedness_and_width → A.width = B.width) →
        A.intersection B = B.intersection A) := by
  revert A B; decide

theorem c1_intersection_comm_up_to_shape_witness :
    Option.map NumericRange.shape
        (NumericRange.intersection (.IntAtLeastEitherSign .U8) (.IntAtLeastSigned .I16)) =
      Option.map NumericRange.shape
        (NumericRange.intersection (.IntAtLeastSigned .I16) (.IntAtLeastEitherSign .U8))
    ∧ NumericRange.intersection (.IntAtLeastEitherSign .U8) (.IntAtLeastSigned .I16) =
        NumericRange.intersection (.IntAtLeastSigned .I16) (.IntAtLeastEitherSign .U8) :=
  ⟨(c1_intersection_comm_up_to_shape (.IntAtLeastEitherSign .U8) (.IntAtLeastSigned .I16)).1,
   (c1_intersection_comm_up_to_shape (.IntAtLeastEitherSign .U8) (.IntAtLeastSigned .I16)).2
     (by decide)⟩

/-- Auxiliary: the equivalence characterizing from_content_in_range. -/
theorem from_content_in_range_spec (b : Bool) :
    (b = true ↔ from_content_in_range b = MatchResult.ContentInRange)
    ∧ (b = false ↔ from_content_in_range b = MatchResult.NoIntersection) := by
  cases b <;> simp [from_content_in_range]

/-- C2 counterexample: for the float-family width F32, contains_int_width
can be false while match_content against the F32 alias is ContentInRange
(never NoIntersection), because the alias arm delegates to
contains_float_width. -/
theorem c2_counterexample :
    NumericRange.contains_int_width (.IntAtLeastEitherSign .I64) .F32 = false
    ∧ NumericRange.match_content (.IntAtLeastEitherSign .I64)
        (.Alias (alias_for .F32) .Other .Other) = MatchResult.ContentInRange
    ∧ NumericRange.match_content (.IntAtLeastEitherSign .I64)
        (.Alias (alias_for .F32) .Other .Other) ≠ MatchResult.NoIntersection := by
  decide

/-- C2 (amended): for every range R and every width W outside the float
family (the eleven integer widths, Nat included), contains_int_width R W is
true exactly when match_content against the built-in alias for W returns
ContentInRange, and false exactly when it returns NoIntersection.  For the
float-family widths the alias arm delegates to contains_float_width, so the
equivalence does not extend to them. -/
theorem c2_contains_int_width_match_content (R : NumericRange) (W : IntLitWidth)
    (arg real : Content) (h : is_float_family W = false) :
    (R.contains_int_width W = true ↔
      R.match_content (.Alias (alias_for W) arg real) = MatchResult.ContentInRange)
    ∧ (R.contains_int_width W = false ↔
      R.match_content (.Alias (alias_for W) arg real) = MatchResult.NoIntersection) := by
  cases W <;>
    first
      | exact absurd h (by decide)
      | exact from_content_in_range_spec (R.contains_int_width _)

theorem c2_contains_int_width_match_content_witness :
    (NumericRange.contains_int_width (.IntAtLeastEitherSign .U8) .I64 = true ↔
      NumericRange.match_content (.IntAtLeastEitherSign .U8)
        (.Alias (alias_for .I64) .Other .Other) = MatchResult.ContentInRange)
    ∧ (NumericRange.contains_int_width (.IntAtLeastEitherSign .U8) .I64 = false ↔
      NumericRange.match_content (.IntAtLeastEitherSign .U8)
        (.Alias (alias_for .I64) .Other .Other) = MatchResult.NoIntersection) :=
  c2_contains_int_width_match_content (.IntAtLeastEitherSign .U8) .I64 .Other .Other (by decide)

set_option maxRecDepth 100000 in
set_option maxHeartbeats 4000000 in
/-- Auxiliary: whenever intersection is present, any width contained in the
result is contained in both operands (boolean form over all inputs). -/
theorem intersection_contains_both : ∀ (A B : NumericRange) (W : IntLitWidth),
    Option.all
      (fun C => !(NumericRange.contains_int_width C W) ||
        (A.contains_int_width W && B.contains_int_width W))
      (A.intersection B) = true := by
  decide

/-- C3: the meet property — if intersection A B is present with value C, then
every concrete width contained in C is contained in both A and B. -/
theorem c3_meet_property (A B C : NumericRange) (W : IntLitWidth)
    (h : A.intersection B = some C) (hc : C.contains_int_width W = true) :
    A.contains_int_width W = true ∧ B.contains_int_width W = true := by
  have hk := intersection_contains_both A B W
  rw [h] at hk
  simp [Option.all, hc] at hk
  exact hk

theorem c3_meet_property_witness :
    NumericRange.contains_int_width (.IntAtLeastEitherSign .U8) .I64 = true
    ∧ NumericRange.contains_int_width (.IntAtLeastEitherSign .U16) .I64 = true :=
  c3_meet_property (.IntAtLeastEitherSign .U8) (.IntAtLeastEitherSign .U16)
    (.IntAtLeastEitherSign .U16) .I64 (by decide) (by decide)

/-- C4: contains_int_width rejects whenever the candidate width is unsigned
while the range demands signedness, regardless of capacity; in every other
case it accepts exactly when the candidate capacity, on the uniform scale, is
at least the capacity of the lower-bound width. -/
theorem c4_contains_int_width_spec (R : NumericRange) (W : IntLitWidth) :
    (is_unsigned_width W = true → R.sign_demand = SignDemand.Signed →
      R.contains_int_width W = false)
    ∧ (¬(is_unsigned_width W = true ∧ R.sign_demand = SignDemand.Signed) →
      (R.contains_int_width W = true ↔ capacity R.width ≤ capacity W)) := by
  revert R W; decide

theorem c4_contains_int_width_spec_witness :
    NumericRange.contains_int_width (.IntAtLeastSigned .I8) .U8 = false
    ∧ (NumericRange.contains_int_width (.IntAtLeastEitherSign .U8) .I64 = true ↔
        capacity (NumericRange.width (.IntAtLeastEitherSign .U8)) ≤ capacity .I64) :=
  ⟨(c4_contains_int_width_spec (.IntAtLeastSigned .I8) .U8).1 (by decide) (by decide),
   (c4_contains_int_width_spec (.IntAtLeastEitherSign .U8) .I64).2 (by decide)⟩

/-- C5: the full behavior of is_superset.  Negative side: unsigned is never a
superset of signed, signed is always a superset of unsigned,
unsigned-vs-unsigned always holds, signed-vs-signed compares capacities.
Positive side: when the two signednesses agree, and when a is unsigned and b
signed, compare capacities; when a is signed and b unsigned, the comparison
is strict.  The three spec edge cases follow. -/
theorem c5_is_superset_spec :
    (∀ a b : IntLitWidth,
      (a.is_superset b true =
        if is_unsigned_width a then
          (if is_unsigned_width b then true else false)
        else
          (if is_unsigned_width b then true else decide (capacity b ≤ capacity a)))
      ∧ (a.is_superset b false =
        if is_unsigned_width a then
          decide (capacity b ≤ capacity a)
        else
          (if is_unsigned_width b then decide (capacity b < capacity a)
           else decide (capacity b ≤ capacity a))))
    ∧ IntLitWidth.is_superset .I16 .U8 false = true
    ∧ IntLitWidth.is_superset .I16 .U16 false = false
    ∧ IntLitWidth.is_superset .U16 .I8 false = true := by
  refine ⟨?_, by decide, by decide, by decide⟩
  decide

/-- C6 counterexample: a signed-demanding variant carrying an unsigned width
is not idempotent — the signed-demand check inside intersection sees an
unsigned lower bound on both sides and returns none. -/
theorem c6_counterexample :
    NumericRange.intersection (.IntAtLeastSigned .U8) (.IntAtLeastSigned .U8) = none
    ∧ NumericRange.intersection (.IntAtLeastSigned .U8) (.IntAtLeastSigned .U8) ≠
        some (.IntAtLeastSigned .U8) := by
  decide

/-- C6 (amended): intersection A A returns some A for every A that has no
sign demand or carries a signed width; when A is a signed-demanding variant
(IntAtLeastSigned or NumAtLeastSigned) carrying an unsigned width, it returns
none. -/
theorem c6_intersection_self (A : NumericRange) :
    A.intersection A =
      if A.sign_demand = SignDemand.Signed ∧ A.width.is_signed = false then none
      else some A := by
  revert A; decide

/-- C7: contains_float_width holds for every range and every float width, so
match_content against each of the three concrete float aliases returns
ContentInRange for every range, the integer-only variants included. -/
theorem c7_float_always_contained (R : NumericRange) (w : FloatWidth) (arg real : Content) :
    R.contains_float_width w = true
    ∧ R.match_content (.Alias .NUM_F32 arg real) = MatchResult.ContentInRange
    ∧ R.match_content (.Alias .NUM_F64 arg real) = MatchResult.ContentInRange
    ∧ R.match_content (.Alias .NUM_DEC arg real) = MatchResult.ContentInRange :=
  ⟨rfl, rfl, rfl, rfl⟩

/-- C8: against the generic floating-point family marker, match_content
returns DifferentContent for the integer-only variants and ContentInRange for
the numeric variants, and never NoIntersection. -/
theorem c8_frac_marker (R : NumericRange) (arg real : Content) :
    (R.match_content (.Alias .NUM_FRAC arg real) =
      if R.is_int_only then MatchResult.DifferentContent else MatchResult.ContentInRange)
    ∧ (R.match_content (.Alias .NUM_FLOATINGPOINT arg real) =
      if R.is_int_only then MatchResult.DifferentContent else MatchResult.ContentInRange)
    ∧ R.match_content (.Alias .NUM_FRAC arg real) ≠ MatchResult.NoIntersection
    ∧ R.match_content (.Alias .NUM_FLOATINGPOINT arg real) ≠ MatchResult.NoIntersection := by
  cases R <;>
    exact ⟨rfl, rfl, fun h => MatchResult.noConfusion h, fun h => MatchResult.noConfusion h⟩

/-- C9: variable_slice returns the suffix of the table matching the variant
family starting at the position of the lower-bound width, whose first element
is the variable corresponding to that width; when the width is absent from
its table the unwrap aborts, modelled as none. -/
theorem c9_variable_slice_suffix (R : NumericRange) :
    (R.variable_slice =
      if int_lit_width_to_variable R.width ∈ table_for R then
        some ((table_for R).drop ((table_for R).indexOf (int_lit_width_to_variable R.width)))
      else none)
    ∧ (R.variable_slice.bind List.head? =
      if int_lit_width_to_variable R.width ∈ table_for R then
        some (int_lit_width_to_variable R.width)
      else none) := by
  revert R; decide

set_option maxRecDepth 40000 in
/-- Auxiliary: the width carried by a present intersection is one of the two
operand widths (boolean form over all inputs). -/
theorem intersection_width_cases : ∀ A B : NumericRange,
    Option.all (fun C => NumericRange.width C == A.width || NumericRange.width C == B.width)
      (A.intersection B) = true := by
  decide

/-- C10: when intersection A B is present with value C, the width carried by
C is the width of A or the width of B — no new lower-bound width is
synthesized. -/
theorem c10_intersection_width_from_operands (A B C : NumericRange)
    (h : A.intersection B = some C) :
    C.width = A.width ∨ C.width = B.width := by
  have hk := intersection_width_cases A B
  rw [h] at hk
  simp [Option.all] at hk
  exact hk

theorem c10_intersection_width_from_operands_witness :
    NumericRange.width (.IntAtLeastEitherSign .U16) =
        NumericRange.width (.IntAtLeastEitherSign .U8)
    ∨ NumericRange.width (.IntAtLeastEitherSign .U16) =
        NumericRange.width (.IntAtLeastEitherSign .U16) :=
  c10_intersection_width_from_operands (.IntAtLeastEitherSign .U8)
    (.IntAtLeastEitherSign .U16) (.IntAtLeastEitherSign .U16) (by decide)

end RocNum
